import Mathlib

/-!
Shallow embedding of the versioning-aware DELETE/GET logic of an
S3-compatible object store (sources: `lib/api/objectDelete.js`,
`lib/api/apiUtils/object/checkQueryVersionId.js`, and the functional
tests of the GET path).  External collaborators (metadata validation,
storage mutation, CORS computation, metric sink) are modelled as
explicit inputs; the repository code is translated statement by
statement.  Components of the repository that are not among the
provided sources (the version-id codec, `decodeVersionId`,
`preprocessingVersioningDelete`, and the GET orchestrator, of which
only the functional tests are provided) are modelled from the spec and
marked as such in their doc comments.
-/

deriving instance DecidableEq for Except

/-- An arsenal-style API error: a code string, an HTTP status code and a
description.  Errors are compared structurally. -/
structure S3Error where
  code : String
  statusCode : Nat
  description : String
deriving DecidableEq, Repr

/-- `errors.X.customizeDescription(msg)` from arsenal: same error with the
description replaced. -/
def customizeDescription (e : S3Error) (msg : String) : S3Error :=
  { e with description := msg }

def errAccessDenied : S3Error := ⟨"AccessDenied", 403, "Access Denied"⟩

def errNoSuchKey : S3Error := ⟨"NoSuchKey", 404, "The specified key does not exist."⟩

def errMethodNotAllowed : S3Error :=
  ⟨"MethodNotAllowed", 405, "The specified method is not allowed against this resource."⟩

def errInvalidArgument : S3Error := ⟨"InvalidArgument", 400, "Invalid Argument"⟩

/-- Modelled from the spec: the distinguishable error with which `decode`
rejects a malformed version token (an InvalidArgument-class error). -/
def errInvalidVersionId : S3Error :=
  customizeDescription errInvalidArgument "Invalid version id specified"

/-- A request query object; `versionId` is `none` when the key is absent and
`some s` when present with value `s` (`some ""` is present-but-empty,
distinguished from absent, mirroring `query.versionId !== undefined`). -/
structure Query where
  versionId : Option String
deriving DecidableEq, Repr

/-- `checkQueryVersionId(query)` from
`lib/api/apiUtils/object/checkQueryVersionId.js`: returns a customized
InvalidArgument error when the query is truthy and carries a defined
`versionId`, and `undefined` (here `none`) otherwise.  The whole query is
`Option Query` because the JS guard `query && ...` also accepts a falsy
query. -/
def checkQueryVersionId (query : Option Query) : Option S3Error :=
  match query with
  | none => none
  | some q =>
    match q.versionId with
    | some _ =>
      some (customizeDescription errInvalidArgument
        "This operation does not accept a version-id.")
    | none => none

/-- JS truthiness of an optional string: `undefined` and `""` are falsy,
every other string is truthy. -/
def strTruthy : Option String → Bool
  | none => false
  | some s => s ≠ ""

/-- Modelled from the spec: the Version Identifier Codec of §4.1
(`versioning.VersionID` of arsenal, not among the provided sources).
`enc` maps an internal version key to an opaque external token; `dec`
rejects malformed tokens by returning `none`. -/
structure Codec where
  enc : String → String
  dec : String → Option String

/-- Modelled from the spec: a concrete codec instance satisfying §4.1
(injective, round-trips, never produces the reserved token "null"), used
to instantiate witnesses. -/
def specCodec : Codec where
  enc := fun k => "v" ++ k
  dec := fun t =>
    match t.data with
    | 'v' :: rest => some (String.mk rest)
    | _ => none

/-- Decoding of an external token: the literal "null" is the reserved
sentinel that bypasses the codec verbatim (§4.1); every other token goes
through `dec`. -/
def decodeToken (c : Codec) (t : String) : Option String :=
  if t = "null" then some "null" else c.dec t

/-- Encoding of an internal key for a response header: the "null" sentinel
is passed through verbatim, unencoded; every other key goes through
`enc`. -/
def encodeKey (c : Codec) (k : String) : String :=
  if k = "null" then k else c.enc k

/-- Modelled from the spec: `decodeVersionId(request.query)` from
`lib/api/apiUtils/object/versioning.js` (not among the provided sources).
An absent query or absent `versionId` yields no requested version id;
the "null" sentinel passes through verbatim; any other token is decoded
by the codec, a malformed one failing with the distinguishable decode
error (§4.1). -/
def decodeVersionId (c : Codec) (query : Option Query) : Except S3Error (Option String) :=
  match query with
  | none => .ok none
  | some q =>
    match q.versionId with
    | none => .ok none
    | some t =>
      match decodeToken c t with
      | some k => .ok (some k)
      | none => .error errInvalidVersionId

/-- A bucket's versioning configuration, when one was ever applied. -/
inductive VersioningCfg where
  | enabled
  | suspended
deriving DecidableEq, Repr

/-- Bucket metadata: only the versioning configuration is consulted by the
delete path (`bucketMD.getVersioningConfiguration()`). -/
structure BucketMD where
  versioningConfiguration : Option VersioningCfg
deriving DecidableEq, Repr

/-- Object metadata as consulted by `objectDelete`: the delete-marker flag
and the `content-length` attribute (absent for delete markers). -/
structure ObjMD where
  isDeleteMarker : Bool
  contentLength : Option Nat
deriving DecidableEq, Repr

/-- The delete options produced by the Delete Preprocessing Engine and
consumed by the storage layer (§3): whether to physically remove data,
and the target version id when so. -/
structure DelOptions where
  deleteData : Bool
  versionId : Option String
deriving DecidableEq, Repr

/-- Modelled from the spec: `preprocessingVersioningDelete` from
`lib/api/apiUtils/object/versioning.js` (not among the provided sources),
per the §4.4 decision table.  The NoSuchKey and skip rows of the table
are enforced by the orchestrator before this call (`objectDelete.js`
lines 62-76), so in the reachable cases: no versioning configuration
means a physical delete of the (existing) object; with a configuration,
a truthy requested version id means a physical delete of that version
and an absent one means delete-marker creation (`deleteData=false`). -/
def preprocessingVersioningDelete (cfg : Option VersioningCfg) (objMD : Option ObjMD)
    (reqVersionId : Option String) : Option DelOptions :=
  match cfg, objMD with
  | none, _ => some ⟨true, reqVersionId⟩
  | some _, _ =>
    if strTruthy reqVersionId then some ⟨true, reqVersionId⟩
    else some ⟨false, none⟩

/-- Requester information: only `isRequesterPublicUser()` matters to the
delete path. -/
structure AuthInfo where
  isRequesterPublicUser : Bool
deriving DecidableEq, Repr

/-- The pieces of the router-normalized request consulted by
`objectDelete`: bucket name, object key, query, and the origin header and
method used for CORS computation. -/
structure DeleteRequest where
  bucketName : String
  objectKey : String
  query : Option Query
  origin : String
  method : String

/-- Result object of a storage mutation (`createAndStoreObject` /
`services.deleteObject`): may carry a `versionId`. -/
structure StoreResult where
  versionId : Option String
deriving DecidableEq, Repr

/-- The external collaborators of `objectDelete`, supplied as inputs:
the outcome of `metadataValidateBucketAndObj` (which on error may still
hand back bucket metadata, `next(err, bucketMD)`), the outcomes of the
two storage mutations, and the pure CORS-header computation
`collectCorsHeaders(origin, method, bucketMD)`. -/
structure DeleteCollab where
  mdValidate : Except (S3Error × Option BucketMD) (BucketMD × Option ObjMD)
  deleteObjectRes : Except S3Error StoreResult
  createObjectRes : Except S3Error StoreResult
  collectCorsHeaders : String → String → Option BucketMD → List (String × String)

/-- A metric pushed to the utapi sink. -/
inductive Metric where
  | putObject (bucket : String) (newByteLength oldByteLength : Nat)
  | deleteObject (bucket : String) (byteLength : Option Nat) (numberOfObjects : Nat)
deriving DecidableEq, Repr

/-- A storage mutation attempted by `objectDelete`: either
`createAndStoreObject(bucketName, ..., objectKey, ..., content,
..., isDeleteMarker, ...)` or `services.deleteObject(bucketName, objMD,
objectKey, delOptions, ...)`. -/
inductive Mutation where
  | createObject (bucketName objectKey : String) (content : Option (List Nat))
      (isDeleteMarker : Bool)
  | deleteObject (bucketName objectKey : String) (options : DelOptions)
deriving DecidableEq, Repr

/-- The response headers assembled by `objectDelete`: the CORS-derived
base object plus the two optional version-related keys
`x-amz-delete-marker` and `x-amz-version-id`. -/
structure ResHeaders where
  cors : List (String × String)
  deleteMarker : Option Bool
  versionId : Option String
deriving DecidableEq, Repr

/-- How a run of `objectDelete` completes: the two early exits call
`cb(err)` with no response headers at all; every completion reaching the
waterfall's final callback calls `cb(err, resHeaders)`, here together
with the metrics pushed and the storage mutations attempted; `jsCrash`
marks a property access on `undefined` (unreachable in practice). -/
inductive DeleteOutcome where
  | earlyError (e : S3Error)
  | response (err : Option S3Error) (headers : ResHeaders) (metrics : List Metric)
      (mutations : List Mutation)
  | jsCrash
deriving DecidableEq, Repr

/-- Stages `getVersioningInfo`, `deleteOperation` and the waterfall's
final callback of `objectDelete` (`objectDelete.js` lines 90-162),
entered after `validateBucketAndObj` has passed `(bucketMD, objMD)` on.
`cors` is the already-determined CORS header object for this run. -/
def deleteStages (codec : Codec) (request : DeleteRequest) (collab : DeleteCollab)
    (cors : List (String × String)) (versioningCfg : Option VersioningCfg)
    (objMD : Option ObjMD) (reqVersionId : Option String) : DeleteOutcome :=
  let delOptions := preprocessingVersioningDelete versioningCfg objMD reqVersionId
  if delOptions.elim false (·.deleteData) then
    -- physical delete of a specific version or marker
    match objMD with
    | none => .jsCrash
    | some omd =>
      let removeDeleteMarker := omd.isDeleteMarker
      let attempted : List Mutation :=
        [.deleteObject request.bucketName request.objectKey
          (delOptions.getD ⟨true, reqVersionId⟩)]
      match collab.deleteObjectRes with
      | .error e => .response (some e) ⟨cors, none, none⟩ [] attempted
      | .ok _ =>
        let hdrs : ResHeaders :=
          match reqVersionId with
          | some v =>
            if v ≠ "" then
              ⟨cors, if removeDeleteMarker then some true else none,
                some (if v = "null" then v else codec.enc v)⟩
            else ⟨cors, none, none⟩
          | none => ⟨cors, none, none⟩
        .response none hdrs
          [.deleteObject request.bucketName omd.contentLength 1] attempted
  else
    -- putting a new delete marker
    let attempted : List Mutation :=
      [.createObject request.bucketName request.objectKey none true]
    match collab.createObjectRes with
    | .error e => .response (some e) ⟨cors, none, none⟩ [] attempted
    | .ok res =>
      let hdrs : ResHeaders :=
        match res.versionId with
        | some rv =>
          if rv ≠ "" then
            ⟨cors, some true, some (if rv = "null" then rv else codec.enc rv)⟩
          else ⟨cors, none, none⟩
        | none => ⟨cors, none, none⟩
      .response none hdrs [.putObject request.bucketName 0 0] attempted

/-- `objectDelete(authInfo, request, log, cb)` from
`lib/api/objectDelete.js`, translated statement by statement: the
public-user guard, the `decodeVersionId` guard (both early exits with no
headers), then the waterfall `validateBucketAndObj → getVersioningInfo →
deleteOperation` and its final callback.  The internal `skipError`
sentinel (a specific-version delete finding no object metadata on a
versioning-configured bucket) is intercepted in the final callback and
converted to `cb(null, resHeaders)`. -/
def objectDelete (codec : Codec) (authInfo : AuthInfo) (request : DeleteRequest)
    (collab : DeleteCollab) : DeleteOutcome :=
  if authInfo.isRequesterPublicUser then .earlyError errAccessDenied
  else
    match decodeVersionId codec request.query with
    | .error e => .earlyError e
    | .ok reqVersionId =>
      match collab.mdValidate with
      | .error (e, bmd) =>
        .response (some e)
          ⟨collab.collectCorsHeaders request.origin request.method bmd, none, none⟩ [] []
      | .ok (bucketMD, objMD) =>
        let cors := collab.collectCorsHeaders request.origin request.method (some bucketMD)
        let versioningCfg := bucketMD.versioningConfiguration
        match objMD with
        | none =>
          if versioningCfg.isNone then
            .response (some errNoSuchKey) ⟨cors, none, none⟩ [] []
          else if strTruthy reqVersionId then
            -- next(skipError, bucketMD): intercepted as success, no metric
            .response none ⟨cors, none, none⟩ [] []
          else
            deleteStages codec request collab cors versioningCfg none reqVersionId
        | some omd =>
          deleteStages codec request collab cors versioningCfg (some omd) reqVersionId

/-- A version in an object's chain: internal sequence key, delete-marker
flag, and content (absent for delete markers). -/
structure Version where
  key : String
  isDeleteMarker : Bool
  content : Option (List Nat)
deriving DecidableEq, Repr

/-- Successful GET result: the version's content and the echoed external
version-id token. -/
structure GetResult where
  content : Option (List Nat)
  versionId : String
deriving DecidableEq, Repr

/-- Lookup of a specific internal version key in an object's chain (the
chain is ordered newest first; its head is the current version). -/
def findVersion (chain : List Version) (k : String) : Option Version :=
  chain.find? (fun v => v.key = k)

/-- Modelled from the spec: the Get Orchestrator of §4.6 (`objectGet` is
not among the provided sources; only its functional tests are).  With an
explicit version id: a malformed token fails with the decode error; a
token resolving to no version fails NoSuchKey; one resolving to a delete
marker fails MethodNotAllowed; otherwise the content is returned with
the echoed encoded version id.  Without a version id: an empty chain or
a current version that is a delete marker fails NoSuchKey; otherwise the
current version's content is returned with its encoded version id. -/
def objectGet (c : Codec) (chain : List Version) (reqToken : Option String) :
    Except S3Error GetResult :=
  match reqToken with
  | some t =>
    match decodeToken c t with
    | none => .error errInvalidVersionId
    | some k =>
      match findVersion chain k with
      | none => .error errNoSuchKey
      | some v =>
        if v.isDeleteMarker then .error errMethodNotAllowed
        else .ok ⟨v.content, encodeKey c k⟩
  | none =>
    match chain.head? with
    | none => .error errNoSuchKey
    | some v =>
      if v.isDeleteMarker then .error errNoSuchKey
      else .ok ⟨v.content, encodeKey c v.key⟩

/-- The bucket metadata threaded to the waterfall's final callback and
hence into the CORS computation: the one handed back by
`metadataValidateBucketAndObj`, also on error. -/
def threadedBucketMD (collab : DeleteCollab) : Option BucketMD :=
  match collab.mdValidate with
  | .error (_, bmd) => bmd
  | .ok (bmd, _) => some bmd

/-! Concrete fixtures used by the witness theorems. -/

def wAuth : AuthInfo := ⟨false⟩

def wBmdEnabled : BucketMD := ⟨some .enabled⟩

def wBmdPlain : BucketMD := ⟨none⟩

def wReqNoVid : DeleteRequest := ⟨"b", "k", some ⟨none⟩, "og", "DELETE"⟩

def wReqVid : DeleteRequest := ⟨"b", "k", some ⟨some "vV1"⟩, "og", "DELETE"⟩

def wReqBadVid : DeleteRequest := ⟨"b", "k", some ⟨some "zzz"⟩, "og", "DELETE"⟩

def wCorsFun : String → String → Option BucketMD → List (String × String) :=
  fun _ _ _ => [("vary", "Origin")]

def wCollabMarker : DeleteCollab :=
  ⟨.ok (wBmdEnabled, none), .ok ⟨some "d1"⟩, .ok ⟨some "m1"⟩, wCorsFun⟩

def wCollabSkip : DeleteCollab :=
  ⟨.ok (wBmdEnabled, none), .ok ⟨some "d1"⟩, .ok ⟨some "m1"⟩, wCorsFun⟩

def wObjPlain : ObjMD := ⟨false, some 42⟩

def wObjMarker : ObjMD := ⟨true, none⟩

def wCollabPhysical : DeleteCollab :=
  ⟨.ok (wBmdEnabled, some wObjMarker), .ok ⟨some "d1"⟩, .ok ⟨some "m1"⟩, wCorsFun⟩

def wCollabPlainDelete : DeleteCollab :=
  ⟨.ok (wBmdPlain, some wObjPlain), .ok ⟨none⟩, .ok ⟨some "m1"⟩, wCorsFun⟩

def wCollabNoObj : DeleteCollab :=
  ⟨.ok (wBmdPlain, none), .ok ⟨some "d1"⟩, .ok ⟨some "m1"⟩, wCorsFun⟩

def wCollabMdErr : DeleteCollab :=
  ⟨.error (⟨"InternalError", 500, "boom"⟩, some wBmdEnabled),
    .ok ⟨some "d1"⟩, .ok ⟨some "m1"⟩, wCorsFun⟩

def wCollabNoVidRes : DeleteCollab :=
  ⟨.ok (wBmdEnabled, none), .ok ⟨some "d1"⟩, .ok ⟨none⟩, wCorsFun⟩

/-! Theorems settling the claims. -/

/-- Claim C6: `checkQueryVersionId` returns the InvalidArgument-class error
(code "InvalidArgument", HTTP 400) customized with the message "This
operation does not accept a version-id." exactly when the query contains a
`versionId` key whose value is defined — including the empty string, which
`q.versionId = some ""` distinguishes from the absent key `none` — and
returns `undefined` otherwise. -/
theorem checkQueryVersionId_spec (q : Query) :
    checkQueryVersionId (some q) =
      if q.versionId.isSome then
        some { code := "InvalidArgument", statusCode := 400,
               description := "This operation does not accept a version-id." }
      else none := by
  cases q with
  | mk v => cases v <;> rfl

/-- Claim C1: a DELETE carrying no explicit version id, on a bucket whose
versioning configuration exists (Enabled or Suspended), creates a new
delete marker through the object-creation path (null content, marker flag
set) — for any object metadata, including none at all — and on success the
response sets x-amz-delete-marker=true and x-amz-version-id to the new
marker's encoded version id (the "null" sentinel echoed literally,
unencoded), and a putObject metric is pushed with newByteLength 0 and
oldByteLength 0. -/
theorem objectDelete_creates_marker (codec : Codec) (authInfo : AuthInfo)
    (request : DeleteRequest) (collab : DeleteCollab)
    (bmd : BucketMD) (objMD : Option ObjMD) (cfg : VersioningCfg)
    (res : StoreResult) (rv : String)
    (hpub : authInfo.isRequesterPublicUser = false)
    (hdec : decodeVersionId codec request.query = .ok none)
    (hmd : collab.mdValidate = .ok (bmd, objMD))
    (hcfg : bmd.versioningConfiguration = some cfg)
    (hcreate : collab.createObjectRes = .ok res)
    (hrv : res.versionId = some rv) (hrvne : rv ≠ "") :
    objectDelete codec authInfo request collab =
      .response none
        ⟨collab.collectCorsHeaders request.origin request.method (some bmd),
          some true, some (if rv = "null" then rv else codec.enc rv)⟩
        [.putObject request.bucketName 0 0]
        [.createObject request.bucketName request.objectKey none true] := by
  cases objMD with
  | none =>
    simp [objectDelete, hpub, hdec, hmd, hcfg, deleteStages,
      preprocessingVersioningDelete, strTruthy, hcreate, hrv, hrvne]
  | some omd =>
    simp [objectDelete, hpub, hdec, hmd, hcfg, deleteStages,
      preprocessingVersioningDelete, strTruthy, hcreate, hrv, hrvne]

/-- Witness for C1: deleting a never-created key on a versioning-enabled
bucket yields the marker-creation response with encoded id "vm1". -/
theorem objectDelete_creates_marker_witness :
    objectDelete specCodec wAuth wReqNoVid wCollabMarker =
      .response none ⟨[("vary", "Origin")], some true, some "vm1"⟩
        [.putObject "b" 0 0] [.createObject "b" "k" none true] := by
  have h := objectDelete_creates_marker specCodec wAuth wReqNoVid wCollabMarker
    wBmdEnabled none .enabled ⟨some "m1"⟩ "m1" rfl rfl rfl rfl rfl rfl (by decide)
  simpa [wReqNoVid, wCollabMarker, wCorsFun, specCodec] using h

/-- Claim C2: a DELETE naming an explicit version id, on a bucket whose
versioning configuration exists, when no object metadata is found, takes
the internal skip outcome and completes as a success with CORS-derived
headers only: no storage mutation, no metric, and the skip sentinel never
surfaces as an error. -/
theorem objectDelete_skip_success (codec : Codec) (authInfo : AuthInfo)
    (request : DeleteRequest) (collab : DeleteCollab)
    (bmd : BucketMD) (cfg : VersioningCfg) (v : String)
    (hpub : authInfo.isRequesterPublicUser = false)
    (hdec : decodeVersionId codec request.query = .ok (some v))
    (hv : v ≠ "")
    (hmd : collab.mdValidate = .ok (bmd, none))
    (hcfg : bmd.versioningConfiguration = some cfg) :
    objectDelete codec authInfo request collab =
      .response none
        ⟨collab.collectCorsHeaders request.origin request.method (some bmd),
          none, none⟩ [] [] := by
  simp [objectDelete, hpub, hdec, hmd, hcfg, strTruthy, hv]

/-- Witness for C2: deleting a specific version that does not exist on a
versioning-enabled bucket succeeds with CORS headers only. -/
theorem objectDelete_skip_success_witness :
    objectDelete specCodec wAuth wReqVid wCollabSkip =
      .response none ⟨[("vary", "Origin")], none, none⟩ [] [] := by
  have h := objectDelete_skip_success specCodec wAuth wReqVid wCollabSkip
    wBmdEnabled .enabled "V1" rfl (by decide) (by decide) rfl rfl
  simpa [wReqVid, wCollabSkip, wCorsFun] using h

/-- Claim C3: a DELETE whose preprocessing yields physical-delete options
(`deleteData=true`) removes that version or marker through the storage
layer and on success pushes a deleteObject metric carrying the removed
object's content-length and numberOfObjects 1; when an explicit version id
was requested the response echoes its encoded token ("null" echoed
unencoded) and, when the removed item was a delete marker — a specific
marker being addressable only through its own explicit version id —
x-amz-delete-marker=true is set. -/
theorem objectDelete_physical_delete (codec : Codec) (authInfo : AuthInfo)
    (request : DeleteRequest) (collab : DeleteCollab)
    (bmd : BucketMD) (omd : ObjMD) (reqVid : Option String) (opts : DelOptions)
    (dres : StoreResult)
    (hpub : authInfo.isRequesterPublicUser = false)
    (hdec : decodeVersionId codec request.query = .ok reqVid)
    (hmd : collab.mdValidate = .ok (bmd, some omd))
    (hpre : preprocessingVersioningDelete bmd.versioningConfiguration (some omd) reqVid
      = some opts)
    (hdd : opts.deleteData = true)
    (hdel : collab.deleteObjectRes = .ok dres) :
    (∃ hdrs, objectDelete codec authInfo request collab =
      .response none hdrs
        [.deleteObject request.bucketName omd.contentLength 1]
        [.deleteObject request.bucketName request.objectKey opts]) ∧
    ∀ v, reqVid = some v → v ≠ "" →
      objectDelete codec authInfo request collab =
        .response none
          ⟨collab.collectCorsHeaders request.origin request.method (some bmd),
            if omd.isDeleteMarker then some true else none,
            some (if v = "null" then v else codec.enc v)⟩
          [.deleteObject request.bucketName omd.contentLength 1]
          [.deleteObject request.bucketName request.objectKey opts] := by
  have hmain : objectDelete codec authInfo request collab =
      deleteStages codec request collab
        (collab.collectCorsHeaders request.origin request.method (some bmd))
        bmd.versioningConfiguration (some omd) reqVid := by
    simp [objectDelete, hpub, hdec, hmd]
  constructor
  · rw [hmain]
    cases reqVid with
    | none =>
      refine ⟨⟨collab.collectCorsHeaders request.origin request.method (some bmd),
        none, none⟩, ?_⟩
      simp [deleteStages, hpre, hdd, hdel]
    | some v =>
      by_cases hv : v = ""
      · subst hv
        refine ⟨⟨collab.collectCorsHeaders request.origin request.method (some bmd),
          none, none⟩, ?_⟩
        simp [deleteStages, hpre, hdd, hdel]
      · refine ⟨⟨collab.collectCorsHeaders request.origin request.method (some bmd),
          if omd.isDeleteMarker then some true else none,
          some (if v = "null" then v else codec.enc v)⟩, ?_⟩
        simp [deleteStages, hpre, hdd, hdel, hv]
  · intro v hv hvne
    subst hv
    rw [hmain]
    simp [deleteStages, hpre, hdd, hdel, hvne]

/-- Witness for C3: deleting a delete marker by its explicit version id on
a versioning-enabled bucket removes it, marks x-amz-delete-marker,
echoes the encoded id and pushes the deleteObject metric. -/
theorem objectDelete_physical_delete_witness :
    objectDelete specCodec wAuth wReqVid wCollabPhysical =
      .response none ⟨[("vary", "Origin")], some true, some "vV1"⟩
        [.deleteObject "b" none 1]
        [.deleteObject "b" "k" ⟨true, some "V1"⟩] := by
  have h := (objectDelete_physical_delete specCodec wAuth wReqVid wCollabPhysical
    wBmdEnabled wObjMarker (some "V1") ⟨true, some "V1"⟩ ⟨some "d1"⟩
    rfl (by decide) rfl (by decide) rfl rfl).2 "V1" rfl (by decide)
  simpa [wReqVid, wCollabPhysical, wCorsFun, wObjMarker, specCodec] using h

/-- Claim C7: the validation stage of objectDelete fails with AccessDenied
for a public requester before any metadata lookup or mutation (the outcome
is the bare error, for every collaborator); it fails with NoSuchKey when
no object metadata is found and the bucket has no versioning
configuration; and it propagates any other metadata-layer error unchanged
to the caller. -/
theorem objectDelete_validation_errors (codec : Codec) (request : DeleteRequest) :
    (∀ authInfo : AuthInfo, ∀ collab : DeleteCollab,
      authInfo.isRequesterPublicUser = true →
      objectDelete codec authInfo request collab = .earlyError errAccessDenied) ∧
    (∀ authInfo : AuthInfo, ∀ collab : DeleteCollab, ∀ bmd : BucketMD,
      authInfo.isRequesterPublicUser = false →
      (∃ rv, decodeVersionId codec request.query = .ok rv) →
      collab.mdValidate = .ok (bmd, none) →
      bmd.versioningConfiguration = none →
      objectDelete codec authInfo request collab =
        .response (some errNoSuchKey)
          ⟨collab.collectCorsHeaders request.origin request.method (some bmd),
            none, none⟩ [] []) ∧
    (∀ authInfo : AuthInfo, ∀ collab : DeleteCollab, ∀ e : S3Error,
      ∀ bmd : Option BucketMD,
      authInfo.isRequesterPublicUser = false →
      (∃ rv, decodeVersionId codec request.query = .ok rv) →
      collab.mdValidate = .error (e, bmd) →
      objectDelete codec authInfo request collab =
        .response (some e)
          ⟨collab.collectCorsHeaders request.origin request.method bmd,
            none, none⟩ [] []) := by
  refine ⟨?_, ?_, ?_⟩
  · intro authInfo collab hpub
    simp [objectDelete, hpub]
  · intro authInfo collab bmd hpub hdec hmd hcfg
    obtain ⟨rv, hrv⟩ := hdec
    simp [objectDelete, hpub, hrv, hmd, hcfg]
  · intro authInfo collab e bmd hpub hdec hmd
    obtain ⟨rv, hrv⟩ := hdec
    simp [objectDelete, hpub, hrv, hmd]

/-- Witness for C7: a public user is denied; a missing object on a bucket
that never had versioning yields NoSuchKey with CORS headers; an internal
metadata error passes through unchanged. -/
theorem objectDelete_validation_errors_witness :
    objectDelete specCodec ⟨true⟩ wReqNoVid wCollabNoObj = .earlyError errAccessDenied ∧
    objectDelete specCodec wAuth wReqNoVid wCollabNoObj =
      .response (some errNoSuchKey) ⟨[("vary", "Origin")], none, none⟩ [] [] ∧
    objectDelete specCodec wAuth wReqNoVid wCollabMdErr =
      .response (some ⟨"InternalError", 500, "boom"⟩)
        ⟨[("vary", "Origin")], none, none⟩ [] [] := by
  refine ⟨(objectDelete_validation_errors specCodec wReqNoVid).1 ⟨true⟩ wCollabNoObj rfl,
    ?_, ?_⟩
  · have h := (objectDelete_validation_errors specCodec wReqNoVid).2.1 wAuth
      wCollabNoObj wBmdPlain rfl ⟨none, rfl⟩ rfl rfl
    simpa [wReqNoVid, wCollabNoObj, wCorsFun] using h
  · have h := (objectDelete_validation_errors specCodec wReqNoVid).2.2 wAuth
      wCollabMdErr ⟨"InternalError", 500, "boom"⟩ (some wBmdEnabled) rfl ⟨none, rfl⟩ rfl
    simpa [wReqNoVid, wCollabMdErr, wCorsFun] using h

/-- Claim C8: a DELETE whose query carries a version id token that fails to
decode fails immediately with the distinguishable decode error, for every
collaborator — so no metadata validation, storage lookup or mutation ever
sees the malformed token — and the early exit carries no response
headers. -/
theorem objectDelete_decode_failure (codec : Codec) (authInfo : AuthInfo)
    (request : DeleteRequest) (q : Query) (t : String)
    (hpub : authInfo.isRequesterPublicUser = false)
    (hq : request.query = some q) (ht : q.versionId = some t)
    (hnull : t ≠ "null") (hdec : codec.dec t = none) :
    ∀ collab : DeleteCollab,
      objectDelete codec authInfo request collab = .earlyError errInvalidVersionId := by
  intro collab
  simp [objectDelete, hpub, hq, decodeVersionId, ht, decodeToken, hnull, hdec]

/-- Witness for C8: the malformed token "zzz" makes objectDelete fail at
once with the decode error. -/
theorem objectDelete_decode_failure_witness :
    objectDelete specCodec wAuth wReqBadVid wCollabMarker =
      .earlyError errInvalidVersionId :=
  objectDelete_decode_failure specCodec wAuth wReqBadVid ⟨some "zzz"⟩ "zzz"
    rfl rfl rfl (by decide) (by decide) wCollabMarker

/-- Claim C9: in every successful objectDelete response the version-related
headers are conditional: after creating a delete marker,
x-amz-delete-marker and x-amz-version-id are set only if the creation
result carries a (truthy) versionId; after a physical delete they are set
only if the request named an explicit version id — so a physical delete on
a bucket with no versioning configuration succeeds with neither header. -/
theorem objectDelete_conditional_headers (codec : Codec) (authInfo : AuthInfo)
    (request : DeleteRequest) :
    (∀ collab : DeleteCollab, ∀ bmd : BucketMD, ∀ objMD : Option ObjMD,
      ∀ cfg : VersioningCfg, ∀ res : StoreResult,
      authInfo.isRequesterPublicUser = false →
      decodeVersionId codec request.query = .ok none →
      collab.mdValidate = .ok (bmd, objMD) →
      bmd.versioningConfiguration = some cfg →
      collab.createObjectRes = .ok res →
      strTruthy res.versionId = false →
      objectDelete codec authInfo request collab =
        .response none
          ⟨collab.collectCorsHeaders request.origin request.method (some bmd),
            none, none⟩
          [.putObject request.bucketName 0 0]
          [.createObject request.bucketName request.objectKey none true]) ∧
    (∀ collab : DeleteCollab, ∀ bmd : BucketMD, ∀ omd : ObjMD, ∀ dres : StoreResult,
      authInfo.isRequesterPublicUser = false →
      decodeVersionId codec request.query = .ok none →
      collab.mdValidate = .ok (bmd, some omd) →
      bmd.versioningConfiguration = none →
      collab.deleteObjectRes = .ok dres →
      objectDelete codec authInfo request collab =
        .response none
          ⟨collab.collectCorsHeaders request.origin request.method (some bmd),
            none, none⟩
          [.deleteObject request.bucketName omd.contentLength 1]
          [.deleteObject request.bucketName request.objectKey ⟨true, none⟩]) := by
  constructor
  · intro collab bmd objMD cfg res hpub hdec hmd hcfg hcr htr
    have hres : res.versionId = none ∨ res.versionId = some "" := by
      cases hv : res.versionId with
      | none => exact Or.inl rfl
      | some rv =>
        rw [hv] at htr
        simp [strTruthy] at htr
        exact Or.inr (by rw [htr])
    cases objMD with
    | none =>
      rcases hres with hres | hres <;>
        simp [objectDelete, hpub, hdec, hmd, hcfg, deleteStages,
          preprocessingVersioningDelete, strTruthy, hcr, hres]
    | some omd =>
      rcases hres with hres | hres <;>
        simp [objectDelete, hpub, hdec, hmd, hcfg, deleteStages,
          preprocessingVersioningDelete, strTruthy, hcr, hres]
  · intro collab bmd omd dres hpub hdec hmd hcfg hdel
    simp [objectDelete, hpub, hdec, hmd, hcfg, deleteStages,
      preprocessingVersioningDelete, strTruthy, hdel]

/-- Witness for C9: on a bucket that never had versioning, deleting an
object physically succeeds with neither x-amz-delete-marker nor
x-amz-version-id, and a marker creation whose result has no versionId sets
neither header. -/
theorem objectDelete_conditional_headers_witness :
    objectDelete specCodec wAuth wReqNoVid wCollabNoVidRes =
      .response none ⟨[("vary", "Origin")], none, none⟩
        [.putObject "b" 0 0] [.createObject "b" "k" none true] ∧
    objectDelete specCodec wAuth wReqNoVid wCollabPlainDelete =
      .response none ⟨[("vary", "Origin")], none, none⟩
        [.deleteObject "b" (some 42) 1] [.deleteObject "b" "k" ⟨true, none⟩] := by
  constructor
  · have h := (objectDelete_conditional_headers specCodec wAuth wReqNoVid).1
      wCollabNoVidRes wBmdEnabled none .enabled ⟨none⟩ rfl rfl rfl rfl rfl rfl
    simpa [wReqNoVid, wCollabNoVidRes, wCorsFun] using h
  · have h := (objectDelete_conditional_headers specCodec wAuth wReqNoVid).2
      wCollabPlainDelete wBmdPlain wObjPlain ⟨none⟩ rfl rfl rfl rfl rfl
    simpa [wReqNoVid, wCollabPlainDelete, wCorsFun, wObjPlain] using h

/-- Helper: every completion of the later stages that reaches the final
callback carries exactly the CORS header object it was handed. -/
theorem deleteStages_cors_eq (codec : Codec) (request : DeleteRequest)
    (collab : DeleteCollab) (cors : List (String × String))
    (cfg : Option VersioningCfg) (objMD : Option ObjMD) (rv : Option String) :
    ∀ err hdrs ms mus,
      deleteStages codec request collab cors cfg objMD rv = .response err hdrs ms mus →
      hdrs.cors = cors := by
  intro err hdrs ms mus h
  unfold deleteStages at h
  dsimp only at h
  repeat' split at h
  all_goals first
    | (injection h with h1 h2 h3 h4; subst h2; rfl)
    | (injection h)

/-- Claim C10: every completion of objectDelete that reaches the
waterfall's final callback — success, skip, or error — carries response
headers whose CORS part is the one computed from the request's origin,
method and the threaded bucket metadata; the two early exits (public-user
AccessDenied and version-id decode failure) return the bare error with no
response headers at all. -/
theorem objectDelete_cors_and_early_exits (codec : Codec) (authInfo : AuthInfo)
    (request : DeleteRequest) (collab : DeleteCollab) :
    (∀ err : Option S3Error, ∀ hdrs : ResHeaders, ∀ ms : List Metric,
      ∀ mus : List Mutation,
      objectDelete codec authInfo request collab = .response err hdrs ms mus →
      hdrs.cors = collab.collectCorsHeaders request.origin request.method
        (threadedBucketMD collab)) ∧
    (authInfo.isRequesterPublicUser = true →
      objectDelete codec authInfo request collab = .earlyError errAccessDenied) ∧
    (∀ e : S3Error, authInfo.isRequesterPublicUser = false →
      decodeVersionId codec request.query = .error e →
      objectDelete codec authInfo request collab = .earlyError e) := by
  refine ⟨?_, ?_, ?_⟩
  · intro err hdrs ms mus h
    by_cases hpub : authInfo.isRequesterPublicUser
    · simp [objectDelete, hpub] at h
    · cases hdec : decodeVersionId codec request.query with
      | error e => simp [objectDelete, hpub, hdec] at h
      | ok rv =>
        cases hmv : collab.mdValidate with
        | error eb =>
          obtain ⟨e, bmd⟩ := eb
          simp [objectDelete, hpub, hdec, hmv] at h
          obtain ⟨h1, h2, h3, h4⟩ := h
          subst h2
          simp [threadedBucketMD, hmv]
        | ok p =>
          obtain ⟨bmd, objMD⟩ := p
          cases objMD with
          | none =>
            by_cases hcfg : bmd.versioningConfiguration = none
            · simp [objectDelete, hpub, hdec, hmv, hcfg] at h
              obtain ⟨h1, h2, h3, h4⟩ := h
              subst h2
              simp [threadedBucketMD, hmv]
            · by_cases htr : strTruthy rv = true
              · simp [objectDelete, hpub, hdec, hmv, hcfg, htr] at h
                obtain ⟨h1, h2, h3, h4⟩ := h
                subst h2
                simp [threadedBucketMD, hmv]
              · have hh : objectDelete codec authInfo request collab =
                    deleteStages codec request collab
                      (collab.collectCorsHeaders request.origin request.method (some bmd))
                      bmd.versioningConfiguration none rv := by
                  simp [objectDelete, hpub, hdec, hmv, hcfg, htr]
                rw [hh] at h
                have hc := deleteStages_cors_eq codec request collab
                  (collab.collectCorsHeaders request.origin request.method (some bmd))
                  bmd.versioningConfiguration none rv err hdrs ms mus h
                simp [threadedBucketMD, hmv, hc]
          | some omd =>
            have hh : objectDelete codec authInfo request collab =
                deleteStages codec request collab
                  (collab.collectCorsHeaders request.origin request.method (some bmd))
                  bmd.versioningConfiguration (some omd) rv := by
              simp [objectDelete, hpub, hdec, hmv]
            rw [hh] at h
            have hc := deleteStages_cors_eq codec request collab
              (collab.collectCorsHeaders request.origin request.method (some bmd))
              bmd.versioningConfiguration (some omd) rv err hdrs ms mus h
            simp [threadedBucketMD, hmv, hc]
  · intro hpub
    simp [objectDelete, hpub]
  · intro e hpub hdec
    simp [objectDelete, hpub, hdec]

/-- Witness for C10: the skip completion carries exactly the CORS headers
of the threaded bucket metadata; a public user and a malformed version id
token exit early with the bare error. -/
theorem objectDelete_cors_and_early_exits_witness :
    ([("vary", "Origin")] : List (String × String)) =
      wCollabSkip.collectCorsHeaders wReqVid.origin wReqVid.method
        (threadedBucketMD wCollabSkip) ∧
    objectDelete specCodec ⟨true⟩ wReqVid wCollabSkip = .earlyError errAccessDenied ∧
    objectDelete specCodec wAuth wReqBadVid wCollabMarker =
      .earlyError errInvalidVersionId := by
  refine ⟨?_, ?_, ?_⟩
  · exact (objectDelete_cors_and_early_exits specCodec wAuth wReqVid wCollabSkip).1
      none ⟨[("vary", "Origin")], none, none⟩ [] []
      (by simp [objectDelete, wAuth, wReqVid, wCollabSkip, decodeVersionId,
        decodeToken, specCodec, wBmdEnabled, strTruthy, wCorsFun])
  · exact (objectDelete_cors_and_early_exits specCodec ⟨true⟩ wReqVid wCollabSkip).2.1 rfl
  · exact (objectDelete_cors_and_early_exits specCodec wAuth wReqBadVid
      wCollabMarker).2.2 errInvalidVersionId rfl (by decide)

/-- Claim C4: a GET naming a delete marker by explicit version id fails
MethodNotAllowed (HTTP 405), while a GET with no version id whose current
version is that same marker fails NoSuchKey (HTTP 404) — two distinct
error outcomes for the same underlying marker. -/
theorem objectGet_marker_errors (c : Codec) (chain : List Version) (t k : String)
    (v : Version)
    (hdec : decodeToken c t = some k)
    (hfind : findVersion chain k = some v)
    (hmark : v.isDeleteMarker = true) :
    objectGet c chain (some t) = .error errMethodNotAllowed ∧
    errMethodNotAllowed.statusCode = 405 ∧
    (chain.head? = some v → objectGet c chain none = .error errNoSuchKey) ∧
    errNoSuchKey.statusCode = 404 ∧
    errMethodNotAllowed ≠ errNoSuchKey := by
  refine ⟨?_, rfl, ?_, rfl, by decide⟩
  · simp [objectGet, hdec, hfind, hmark]
  · intro hhead
    simp [objectGet, hhead, hmark]

/-- Witness for C4: a chain whose current version is a delete marker gives
405 when that marker is addressed by its id and 404 without one. -/
theorem objectGet_marker_errors_witness :
    objectGet specCodec [⟨"V2", true, none⟩, ⟨"V1", false, some [104]⟩]
        (some "vV2") = .error errMethodNotAllowed ∧
    objectGet specCodec [⟨"V2", true, none⟩, ⟨"V1", false, some [104]⟩]
        none = .error errNoSuchKey := by
  have h := objectGet_marker_errors specCodec
    [⟨"V2", true, none⟩, ⟨"V1", false, some [104]⟩] "vV2" "V2"
    ⟨"V2", true, none⟩ (by decide) (by decide) rfl
  exact ⟨h.1, h.2.2.1 rfl⟩

/-- Claim C5: a GET naming an explicit version id that resolves to an
ordinary (non-marker) version returns that version's content and echoes a
version id equal to the requested one after codec round-trip. -/
theorem objectGet_explicit_ordinary (c : Codec) (chain : List Version) (t k : String)
    (v : Version)
    (hdec : decodeToken c t = some k)
    (hfind : findVersion chain k = some v)
    (hord : v.isDeleteMarker = false)
    (hrt : encodeKey c k = t) :
    objectGet c chain (some t) = .ok ⟨v.content, t⟩ := by
  simp [objectGet, hdec, hfind, hord, hrt]

/-- Witness for C5: fetching the buried ordinary version by its id returns
its content and echoes the requested id unchanged. -/
theorem objectGet_explicit_ordinary_witness :
    objectGet specCodec [⟨"V2", true, none⟩, ⟨"V1", false, some [104]⟩]
        (some "vV1") = .ok ⟨some [104], "vV1"⟩ :=
  objectGet_explicit_ordinary specCodec
    [⟨"V2", true, none⟩, ⟨"V1", false, some [104]⟩] "vV1" "V1"
    ⟨"V1", false, some [104]⟩ (by decide) (by decide) rfl (by decide)
